import Mathlib

/-!
Shallow embedding of the service-quota-monitor collection engine
(`src/main.py`, `src/collector`, `src/cache`, `src/scheduler`,
`src/provider`), with theorems checking the specification's claims.
-/

/-- Case-sensitive substring test: Python's `needle in haystack`. -/
def strContains (haystack needle : String) : Bool :=
  haystack.toList.tails.any (fun t => needle.toList.isPrefixOf t)

/-- Python's `str.lower()` (ASCII case folding, the range used by quota names). -/
def strLower (s : String) : String :=
  ⟨s.data.map Char.toLower⟩

/-! ## TTL caches (`src/cache/cache.py`, `src/cache/quota_limit_cache.py`)

Wall-clock time (`time.time()`) is modelled as a rational number passed
explicitly to each operation. -/

/-- `MemoryCache._cache`: a dict from key to `(value, expiration_time)`. -/
def MemoryCache (V : Type) := String → Option (V × ℚ)

def MemoryCache.empty (V : Type) : MemoryCache V := fun _ => none

/-- `MemoryCache.set(key, value, ttl)` performed at time `now`:
stores `(value, time.time() + ttl)`. -/
def MemoryCache.set {V : Type} (c : MemoryCache V) (now : ℚ) (key : String)
    (value : V) (ttl : ℚ) : MemoryCache V :=
  fun k => if k = key then some (value, now + ttl) else c k

/-- `MemoryCache.get(key)` performed at time `now`: absent key is a miss;
an entry with `time.time() > expiration_time` is deleted and reported as a
miss; otherwise the value is returned.  The pair is the returned value and
the cache state after the (lazily evicting) read. -/
def MemoryCache.get {V : Type} (c : MemoryCache V) (now : ℚ) (key : String) :
    Option V × MemoryCache V :=
  match c key with
  | none => (none, c)
  | some (value, expiration_time) =>
    if now > expiration_time then
      (none, fun k => if k = key then none else c k)
    else
      (some value, c)

/-- One on-disk file of `QuotaLimitCache`
(`.quota_limit_cache/{account_id}/{region}/{service}.json`):
a `timestamp` plus a dict from quota code to quota data. -/
structure CacheFile (V : Type) where
  timestamp : ℚ
  quotas : String → Option V

/-- The `QuotaLimitCache` file store, keyed by `(account_id, region, service)`. -/
def QuotaLimitCache (V : Type) := String × String × String → Option (CacheFile V)

def QuotaLimitCache.empty (V : Type) : QuotaLimitCache V := fun _ => none

/-- `QuotaLimitCache.get(account_id, region, service, quota_code)` at time
`now` with TTL `cache_ttl`: missing file is a miss; a file with
`time.time() - timestamp > cache_ttl` is reported expired (the file is not
deleted); otherwise the quota entry is looked up.  Payloads stored by the
collector are non-empty dicts, so Python's `if quota_data:` coincides with
presence. -/
def QuotaLimitCache.get {V : Type} (st : QuotaLimitCache V) (cache_ttl now : ℚ)
    (account_id region service quota_code : String) : Option V :=
  match st (account_id, region, service) with
  | none => none
  | some cache_data =>
    if now - cache_data.timestamp > cache_ttl then none
    else cache_data.quotas quota_code

/-- `QuotaLimitCache.set(account_id, region, service, quota_code, quota_data)`
at time `now`: merges into the existing file (if any), refreshing its
timestamp and overwriting the one quota entry. -/
def QuotaLimitCache.set {V : Type} (st : QuotaLimitCache V) (now : ℚ)
    (account_id region service quota_code : String) (quota_data : V) :
    QuotaLimitCache V :=
  fun k =>
    if k = (account_id, region, service) then
      some { timestamp := now
             quotas := fun c =>
               if c = quota_code then some quota_data
               else match st (account_id, region, service) with
                 | some cf => cf.quotas c
                 | none => none }
    else st k
/-! ## Collection results (`src/collector/quota_result.py`) -/

/-- `QuotaStatus`. -/
inductive QuotaStatus where
  | success
  | skipped
  | failed
  deriving DecidableEq, Repr

/-- The `quota_info` dict as consumed downstream: the collector reads
`value` (with `dict.get('value', 0.0)` defaulting), and `main.py` copies an
`account_id` / `region` context into it (absent on raw API payloads, so
optional).  The remaining keys of the source dict (quota code/name, unit,
adjustability flags) are never read by the embedded code paths. -/
structure QuotaInfoData where
  value : ℚ := 0
  account_id : Option String := none
  region : Option String := none
  deriving DecidableEq, Repr

/-- `QuotaResult` with its source defaults. -/
structure QuotaResult where
  service : String
  quota_code : String
  quota_name : String
  status : QuotaStatus
  account_id : String := "default"
  region : String := "us-east-1"
  reason : Option String := none
  quota_info : Option QuotaInfoData := none
  error : Option String := none
  deriving DecidableEq, Repr

/-! ## Result aggregation (`src/collector/collector.py`) -/

/-- Label set of the three quota gauge families. -/
structure MetricLabels where
  provider : String
  account_id : String
  region : String
  service : String
  quota_name : String
  quota_code : String
  deriving DecidableEq, Repr

/-- A Prometheus gauge cell: never written, written `float('nan')`, or a
number. -/
inductive GaugeValue where
  | unset
  | nan
  | val (q : ℚ)
  deriving DecidableEq, Repr

/-- A labelled gauge family. -/
def Gauge := MetricLabels → GaugeValue

def Gauge.set (g : Gauge) (labels : MetricLabels) (v : GaugeValue) : Gauge :=
  fun l => if l = labels then v else g l

/-- A labelled counter family. -/
def PromCounter (K : Type) := K → ℕ

def PromCounter.inc {K : Type} [DecidableEq K] (c : PromCounter K) (k : K) :
    PromCounter K :=
  fun x => if x = k then c x + 1 else c x

/-- Python `dict.get` over an association list (dict keys are unique). -/
def dictGet {α : Type} (m : List (String × α)) (k : String) : Option α :=
  (m.find? (fun p => p.1 == k)).map (fun p => p.2)

/-- The labels `add_result` builds for a result (`collector.py` 101-108). -/
def QuotaResult.labels (result : QuotaResult) : MetricLabels :=
  { provider := "aws"
    account_id := result.account_id
    region := result.region
    service := result.service
    quota_name := result.quota_name
    quota_code := result.quota_code }

/-- Error-type classification of a failed result (`collector.py` 147-151). -/
def errorTypeOf (error : Option String) : String :=
  let e := error.getD ""
  if strContains e "NoSuchResourceException" then "quota_not_found"
  else if strContains e "AccessDeniedException" then "permission_denied"
  else "api_error"

/-- `QuotaCollector` state: accumulated results, the per-scope usage dicts,
the three gauges and the two counters. -/
structure QuotaCollector where
  results : List QuotaResult := []
  usage_data : String × String × String → Option (List (String × ℚ)) := fun _ => none
  quota_limit : Gauge := fun _ => GaugeValue.unset
  quota_usage : Gauge := fun _ => GaugeValue.unset
  quota_usage_percent : Gauge := fun _ => GaugeValue.unset
  scrape_errors_total : PromCounter (String × String × String) := fun _ => 0
  scrape_skipped_total : PromCounter (String × String) := fun _ => 0

/-- `QuotaCollector._get_usage_value` (`collector.py` 256-282):
`usage_data.get(key, {}).get(quota_code)`. -/
def QuotaCollector.get_usage_value (col : QuotaCollector)
    (account_id region service quota_code : String) : Option ℚ :=
  match col.usage_data (account_id, region, service) with
  | none => none
  | some usage_data => dictGet usage_data quota_code

/-- `QuotaCollector.add_result` (`collector.py` 81-157). -/
def QuotaCollector.add_result (col : QuotaCollector) (result : QuotaResult) :
    QuotaCollector :=
  let col := { col with results := col.results ++ [result] }
  match result.status with
  | .success =>
    let limit_value := ((result.quota_info.map QuotaInfoData.value).getD 0)
    let labels := result.labels
    let col := { col with quota_limit := col.quota_limit.set labels (.val limit_value) }
    match col.get_usage_value result.account_id result.region result.service
        result.quota_code with
    | some usage_value =>
      let col := { col with quota_usage := col.quota_usage.set labels (.val usage_value) }
      if 0 < limit_value then
        { col with quota_usage_percent :=
            col.quota_usage_percent.set labels (.val (usage_value / limit_value * 100)) }
      else
        { col with quota_usage_percent := col.quota_usage_percent.set labels .nan }
    | none =>
      { col with
          quota_usage := col.quota_usage.set labels .nan
          quota_usage_percent := col.quota_usage_percent.set labels .nan }
  | .skipped =>
    { col with scrape_skipped_total :=
        col.scrape_skipped_total.inc (result.service, result.reason.getD "unknown") }
  | .failed =>
    { col with scrape_errors_total :=
        col.scrape_errors_total.inc (result.service, result.quota_code, errorTypeOf result.error) }

/-- The labels both `set_usage_data` loops build (`collector.py` 210-217,
241-248): scope fields from the call arguments, quota fields from the
matched result. -/
def usageLabels (account_id region service : String) (result : QuotaResult) :
    MetricLabels :=
  { provider := "aws"
    account_id := account_id
    region := region
    service := service
    quota_name := result.quota_name
    quota_code := result.quota_code }

/-- First `set_usage_data` loop (`collector.py` 197-227): a Success result
whose `quota_info` context matches the scope gets its usage gauge set and
its percent gauge re-derived (`usage / limit * 100` when limit > 0, else
NaN).  Acts on the (usage, percent) gauge pair. -/
def setUsageSuccessStep (account_id region service : String)
    (usage_data : List (String × ℚ)) (g : Gauge × Gauge) (result : QuotaResult) :
    Gauge × Gauge :=
  match result.quota_info with
  | none => g
  | some quota_info =>
    if result.status = .success ∧ quota_info.account_id = some account_id ∧
        quota_info.region = some region ∧ result.service = service then
      match dictGet usage_data result.quota_code with
      | some usage_value =>
        let limit_value := quota_info.value
        let labels := usageLabels account_id region service result
        (g.1.set labels (.val usage_value),
         if 0 < limit_value then
           g.2.set labels (.val (usage_value / limit_value * 100))
         else
           g.2.set labels .nan)
      | none => g
    else g

/-- Second `set_usage_data` loop (`collector.py` 229-254): a Skipped result
matching the scope gets its usage gauge set even though it has no limit,
and its percent gauge set to NaN. -/
def setUsageSkippedStep (account_id region service : String)
    (usage_data : List (String × ℚ)) (g : Gauge × Gauge) (result : QuotaResult) :
    Gauge × Gauge :=
  if result.status = .skipped ∧ result.account_id = account_id ∧
      result.region = region ∧ result.service = service then
    match dictGet usage_data result.quota_code with
    | some usage_value =>
      let labels := usageLabels account_id region service result
      (g.1.set labels (.val usage_value), g.2.set labels .nan)
    | none => g
  else g

/-- `QuotaCollector.set_usage_data` (`collector.py` 184-254): store the
scope's usage dict, then run the Success loop and the Skipped loop over the
accumulated results. -/
def QuotaCollector.set_usage_data (col : QuotaCollector)
    (account_id region service : String) (usage_data : List (String × ℚ)) :
    QuotaCollector :=
  let col := { col with usage_data := fun k =>
    if k = (account_id, region, service) then some usage_data else col.usage_data k }
  let g := col.results.foldl
    (setUsageSuccessStep account_id region service usage_data)
    (col.quota_usage, col.quota_usage_percent)
  let g := col.results.foldl
    (setUsageSkippedStep account_id region service usage_data) g
  { col with quota_usage := g.1, quota_usage_percent := g.2 }

/-! ## Remote limit fetch with retry (`src/provider/aws/service_quotas.py`,
`src/main.py` `_collect_account_region_quotas`) -/

/-- A botocore `ClientError`: an error code plus a message. -/
structure RemoteError where
  code : String
  message : String
  deriving DecidableEq, Repr

/-- `str(api_error)` for a `ClientError`: botocore renders the error code
into the message, which is what `main.py` substring-matches on. -/
def RemoteError.render (e : RemoteError) : String :=
  "An error occurred (" ++ e.code ++ ") when calling the GetServiceQuota operation: " ++ e.message

/-- One `ServiceQuotasClient.get_service_quota` call around a raw API
outcome (`service_quotas.py` 57-120): on a `TooManyRequestsException` error
code the client itself sleeps 2 seconds before re-raising (lines 104-110);
every other error re-raises without sleeping.  Returns (seconds slept
inside the client, outcome). -/
def getServiceQuotaClientCall (raw : Except RemoteError QuotaInfoData) :
    ℕ × Except RemoteError QuotaInfoData :=
  match raw with
  | .ok quota_info => (0, .ok quota_info)
  | .error e =>
    (if e.code = "TooManyRequestsException" then 2 else 0, .error e)

/-- The retry loop around `get_service_quota` (`main.py` 739-759 and
1252-1273): `max_retries = 3`; an error whose rendered string contains
`TooManyRequestsException` is retried after `2 ** retry_count * 2` seconds
while `retry_count < max_retries - 1`; any other error (or a throttle at
the retry ceiling) is re-raised at once.  `fuel` is
`max_retries - retry_count`; `call n` is the raw outcome of the n-th remote
attempt.  Returns (client-internal sleep, backoff sleep, outcome), where
outcome `.ok none` is the loop falling through with `quota_info = None`. -/
def getQuotaRetryAux (call : ℕ → Except RemoteError QuotaInfoData)
    (max_retries : ℕ) :
    ℕ → ℕ → ℕ × ℕ × Except RemoteError (Option QuotaInfoData)
  | _, 0 => (0, 0, .ok none)
  | retry_count, fuel + 1 =>
    let step := getServiceQuotaClientCall (call retry_count)
    match step.2 with
    | .ok quota_info => (step.1, 0, .ok (some quota_info))
    | .error e =>
      if strContains e.render "TooManyRequestsException" ∧
          retry_count < max_retries - 1 then
        let wait_time := 2 ^ retry_count * 2
        let rest := getQuotaRetryAux call max_retries (retry_count + 1) fuel
        (step.1 + rest.1, wait_time + rest.2.1, rest.2.2)
      else
        (step.1, 0, .error e)

/-- The retried fetch as `main.py` performs it: `max_retries = 3`,
`retry_count = 0`. -/
def getQuotaWithRetry (call : ℕ → Except RemoteError QuotaInfoData) :
    ℕ × ℕ × Except RemoteError (Option QuotaInfoData) :=
  getQuotaRetryAux call 3 0 3

/-- `reason` classification of the outer exception handler
(`main.py` 801-822). -/
def classifyFailureReason (error_msg : String) : String :=
  if strContains error_msg "NoSuchResourceException" then "quota_not_found"
  else if strContains error_msg "AccessDeniedException" then "permission_denied"
  else "api_error"

/-- One statically-declared quota item as consumed by collection
(`config/loader.py` `QuotaItem`; the description and per-quota TTL fields
are never read by the embedded code paths). -/
structure QuotaItem where
  quota_code : String
  quota_name : String
  priority : String := "medium"
  deriving DecidableEq, Repr

/-- Fetch one quota's limit and wrap the outcome into a `QuotaResult`
(`main.py` 718-822, concurrent path, with `quota_limit_cache=None`):
success carries the quota info with the account/region context copied in;
a `None` payload becomes a Failed `empty_response` result; a raised error
becomes a Failed result with its classified reason. -/
def fetchQuotaResult (call : ℕ → Except RemoteError QuotaInfoData)
    (account_id service_region service : String) (quota : QuotaItem) :
    QuotaResult :=
  match (getQuotaWithRetry call).2.2 with
  | .ok (some quota_info) =>
    { service := service
      quota_code := quota.quota_code
      quota_name := quota.quota_name
      status := .success
      quota_info := some { quota_info with account_id := some account_id, region := some service_region }
      account_id := account_id
      region := service_region }
  | .ok none =>
    { service := service
      quota_code := quota.quota_code
      quota_name := quota.quota_name
      status := .failed
      reason := some "empty_response"
      error := some "API returned empty response"
      account_id := account_id
      region := service_region }
  | .error e =>
    { service := service
      quota_code := quota.quota_code
      quota_name := quota.quota_name
      status := .failed
      reason := some (classifyFailureReason e.render)
      error := some e.render
      account_id := account_id
      region := service_region }

/-! ## Dynamic quota discovery (`src/provider/aws/sagemaker_discovery.py`) -/

/-- One entry of the remote quota catalog (`list_service_quotas` payload,
the fields discovery reads). -/
structure CatalogQuota where
  quota_code : String
  quota_name : String
  deriving DecidableEq, Repr

/-- `DiscoveryConfig` (`config/loader.py`): each match rule is a dict; a
rule carrying a `name_contains` keyword list is `some keywords`, a rule
without that key (skipped by `_matches_rules`) is `none`. -/
structure DiscoveryConfig where
  enabled : Bool
  match_rules : List (Option (List String))
  default_priority : String
  deriving DecidableEq, Repr

/-- `SageMakerDiscovery._matches_rules` (lines 94-119): a name matches when
some rule's keywords are all case-insensitive substrings of it. -/
def matchesRules (match_rules : List (Option (List String)))
    (quota_name : String) : Bool :=
  match_rules.any fun rule =>
    match rule with
    | some name_contains =>
      name_contains.all fun keyword =>
        strContains (strLower quota_name) (strLower keyword)
    | none => false

/-- `SageMakerDiscovery.discover_quotas` (lines 39-92): pull the catalog,
keep the entries matching the rules, build `QuotaItem`s with the
configured default priority; a failed catalog call yields `[]`. -/
def discoverQuotas (config : DiscoveryConfig)
    (catalog : Except Unit (List CatalogQuota)) : List QuotaItem :=
  match catalog with
  | .error _ => []
  | .ok all_quotas =>
    (all_quotas.filter fun quota => matchesRules config.match_rules quota.quota_name).map
      fun quota =>
        { quota_code := quota.quota_code
          quota_name := quota.quota_name
          priority := config.default_priority }

/-! ## Per-service limit collection (`src/main.py`
`_collect_account_region_quotas` / `_collect_account_quotas`) -/

/-- A service's entry in `quota_config.aws`: a declared quota list or a
discovery configuration. -/
inductive ServiceConfig where
  | quotas (items : List QuotaItem)
  | discovery (config : DiscoveryConfig)
  deriving DecidableEq, Repr

/-- The fixed global-service list (`main.py` 465, 508). -/
def global_services : List String := ["route53", "cloudfront"]

/-- The fixed built-in CloudFront limit table keyed by quota code
(`main.py` 663-668). -/
def cloudfront_default_limits : List (String × ℚ) :=
  [("L-24B04930", 200), ("L-7D134442", 20), ("L-CF0D4FC5", 20), ("L-08884E5C", 100)]

/-- Limit collection for one configured service of one (account, region)
(`main.py` 504-824 with `quota_limit_cache=None`): global services are
pinned to region `us-east-1`; an enabled discovery config enumerates the
catalog and fetches every match; `cloudfront` takes limits from the fixed
built-in table, emitting a Success result per table hit and nothing for a
code missing from the table; any other declared service fetches each quota
with retry.  `call q n` is the raw remote outcome of attempt `n` for quota
code `q`. -/
def collectServiceLimits (call : String → ℕ → Except RemoteError QuotaInfoData)
    (catalog : Except Unit (List CatalogQuota))
    (account_id region service : String) (service_config : ServiceConfig) :
    List QuotaResult :=
  let service_region := if service ∈ global_services then "us-east-1" else region
  match service_config with
  | .discovery discovery_config =>
    if discovery_config.enabled then
      (discoverQuotas discovery_config catalog).map fun quota_item =>
        fetchQuotaResult (call quota_item.quota_code) account_id service_region
          service quota_item
    else []
  | .quotas quotas =>
    if service = "cloudfront" then
      quotas.filterMap fun quota =>
        (dictGet cloudfront_default_limits quota.quota_code).map fun default_limit =>
          { service := service
            quota_code := quota.quota_code
            quota_name := quota.quota_name
            status := QuotaStatus.success
            quota_info := some { value := default_limit, account_id := some account_id, region := some service_region }
            account_id := account_id
            region := service_region }
    else
      quotas.map fun quota =>
        fetchQuotaResult (call quota.quota_code) account_id service_region
          service quota

/-- The limit phase of `_collect_account_region_quotas` over every
configured service (`main.py` 504-824). -/
def collectRegionLimits (call : String → ℕ → Except RemoteError QuotaInfoData)
    (catalog : Except Unit (List CatalogQuota)) (account_id region : String)
    (aws_config : List (String × ServiceConfig)) : List QuotaResult :=
  aws_config.foldl
    (fun acc sc => acc ++ collectServiceLimits call catalog account_id region sc.1 sc.2)
    []

/-- `_collect_account_quotas` (`main.py` 381-419), limit phase: an account
whose discovered region list is empty falls back to `['us-east-1']`; each
region's results are concatenated. -/
def collectAccountQuotas (call : String → ℕ → Except RemoteError QuotaInfoData)
    (catalog : Except Unit (List CatalogQuota)) (account_id : String)
    (regions : List String) (aws_config : List (String × ServiceConfig)) :
    List QuotaResult :=
  let regions := if regions.isEmpty then ["us-east-1"] else regions
  regions.foldl
    (fun acc region => acc ++ collectRegionLimits call catalog account_id region aws_config)
    []

/-! ## Scheduler (`src/scheduler/scheduler.py`) -/

/-- A Python annotation expression as it appears in source. -/
inductive PyExpr where
  | name (identifier : String)
  | attr (obj : PyExpr) (field : String)
  | subscript (obj : PyExpr) (index : PyExpr)
  deriving DecidableEq, Repr

/-- The names visible from `QuotaScheduler.__init__`'s scope when it runs:
the module imports of `scheduler.py` lines 12-15 (`threading`, `time`,
`logging`, and `Callable` from `typing`) plus the module-level `logger` and
the class itself.  `Optional` is not among them. -/
def schedulerModuleScope : List String :=
  ["threading", "time", "logging", "Callable", "logger", "QuotaScheduler"]

/-- Runtime evaluation of an annotation expression, as CPython up to 3.9
performed for attribute-target annotated assignments
(`self._limit_thread: ... = ...`); CPython 3.10+ discards such annotations
at compile time instead.  An identifier bound in no enclosing scope raises
`NameError` with that identifier. -/
def evalAnnotation (scope : List String) : PyExpr → Except String Unit
  | .name identifier => if identifier ∈ scope then .ok () else .error identifier
  | .attr obj _ => evalAnnotation scope obj
  | .subscript obj index => do
    _ ← evalAnnotation scope obj
    evalAnnotation scope index

/-- The annotation `Optional[threading.Thread]` on the two thread fields
(`scheduler.py` lines 54-55). -/
def threadFieldAnnotation : PyExpr :=
  .subscript (.name "Optional") (.attr (.name "threading") "Thread")

/-- The scheduler's state after `__init__`: the two intervals, the
`_running` flag, and the two thread fields (`None` until `start`). -/
structure SchedulerState where
  limit_interval : ℕ := 86400
  usage_interval : ℕ := 3600
  running : Bool := false
  limit_thread : Option Unit := none
  usage_thread : Option Unit := none
  deriving DecidableEq, Repr

/-- `QuotaScheduler.__init__` (lines 31-57) as the interpreter the program
runs under executes it (CPython 3.10+, verified on 3.11): stores the
callbacks and intervals, sets `_running = False`, and performs the two
annotated assignments `self._limit_thread: Optional[threading.Thread] =
None` and `self._usage_thread: Optional[threading.Thread] = None`.  These
are attribute-target annotations inside a function body, which this
interpreter discards at compile time rather than evaluating, so the
unbound name `Optional` is never looked up and `__init__` completes
without raising. -/
def quotaSchedulerInit (limit_interval usage_interval : ℕ) :
    Except String SchedulerState :=
  .ok { limit_interval := limit_interval, usage_interval := usage_interval,
        running := false, limit_thread := none, usage_thread := none }

/-- Observable events of a refresh loop iteration. -/
inductive LoopEvent where
  | sleep (seconds : ℕ)
  | invoke
  | logError
  deriving DecidableEq, Repr

/-- One iteration of `_limit_refresh_loop` / `_usage_refresh_loop`
(`scheduler.py` 112-166): read `_running` at the loop head (exit when
false); sleep the interval; re-read `_running` (break when false);
invoke the bound callback; a raised exception is logged and the loop
continues.  Returns the iteration's events and whether the loop keeps
running. -/
def refreshLoopIter (interval : ℕ) (running_at_head running_after_sleep : Bool)
    (callback : Except String Unit) : List LoopEvent × Bool :=
  if running_at_head then
    if running_after_sleep then
      match callback with
      | .ok _ => ([.sleep interval, .invoke], true)
      | .error _ => ([.sleep interval, .invoke, .logError], true)
    else ([.sleep interval], false)
  else ([], false)

/-- `_limit_refresh_loop`'s iteration (interval `limit_interval`). -/
def limitRefreshIter (st : SchedulerState) (running_at_head running_after_sleep : Bool)
    (callback : Except String Unit) : List LoopEvent × Bool :=
  refreshLoopIter st.limit_interval running_at_head running_after_sleep callback

/-- `_usage_refresh_loop`'s iteration (interval `usage_interval`). -/
def usageRefreshIter (st : SchedulerState) (running_at_head running_after_sleep : Bool)
    (callback : Except String Unit) : List LoopEvent × Bool :=
  refreshLoopIter st.usage_interval running_at_head running_after_sleep callback

/-- A refresh loop run for `fuel` iterations starting at iteration `i`:
`flags j` are the two `_running` reads of iteration `j`, `callbacks j` its
callback outcome. -/
def refreshLoopRun (interval : ℕ) (flags : ℕ → Bool × Bool)
    (callbacks : ℕ → Except String Unit) : ℕ → ℕ → List LoopEvent
  | _, 0 => []
  | i, fuel + 1 =>
    let step := refreshLoopIter interval (flags i).1 (flags i).2 (callbacks i)
    step.1 ++ (if step.2 then refreshLoopRun interval flags callbacks (i + 1) fuel else [])

/-! ## Active region discovery
(`src/provider/discovery/active_region_discoverer.py`) -/

/-- One account's credentials; Python string truthiness makes `""` count
as a missing key. -/
structure AwsCredentials where
  access_key : String
  secret_key : String
  deriving DecidableEq, Repr

/-- One per-account cache file (`.ec2_regions_cache/{account_id}.json`):
`{timestamp, regions}`. -/
structure RegionCacheEntry where
  timestamp : ℚ
  regions : List String
  deriving DecidableEq, Repr

/-- The per-account region cache directory. -/
def RegionCache := String → Option RegionCacheEntry

/-- `_load_account_cache` (lines 266-289): expired when
`time.time() - timestamp > cache_ttl`. -/
def loadAccountCache (cache : RegionCache) (cache_ttl now : ℚ)
    (account_id : String) : Option (List String) :=
  match cache account_id with
  | none => none
  | some cache_data =>
    if now - cache_data.timestamp > cache_ttl then none
    else some cache_data.regions

/-- `_save_account_cache` (lines 291-308). -/
def saveAccountCache (cache : RegionCache) (now : ℚ) (account_id : String)
    (regions : List String) : RegionCache :=
  fun a => if a = account_id then some { timestamp := now, regions := regions } else cache a

/-- The discoverer's running state over the account loop: the result map
(`result: Dict[str, List[str]]`), the cache, and the log of
(account, region) probe calls issued so far. -/
structure DiscoverAcc where
  result : String → Option (List String)
  cache : RegionCache
  probes : List (String × String)

/-- One iteration of the account loop of
`discover_ec2_used_regions_from_provider` (lines 348-385): skip an account
with incomplete credentials; with `use_cache and not force_refresh`, a
fresh cache entry is returned with no probing; otherwise probe every
candidate region (`probe_ec2_usage` catches its own errors and returns a
Bool) and save the result when `use_cache`. -/
def discoverAccountStep (probe : String → String → Bool)
    (region_candidates : List String) (use_cache force_refresh : Bool)
    (cache_ttl now : ℚ) (acc : DiscoverAcc) (entry : String × AwsCredentials) :
    DiscoverAcc :=
  let account_id := entry.1
  let credentials := entry.2
  if credentials.access_key = "" ∨ credentials.secret_key = "" then acc
  else
    match (if use_cache && !force_refresh then
        loadAccountCache acc.cache cache_ttl now account_id
      else none) with
    | some cached_regions =>
      { acc with result := fun a =>
          if a = account_id then some cached_regions else acc.result a }
    | none =>
      let used_regions := region_candidates.filter (probe account_id)
      { result := fun a => if a = account_id then some used_regions else acc.result a
        cache := if use_cache then saveAccountCache acc.cache now account_id used_regions
          else acc.cache
        probes := acc.probes ++ region_candidates.map (fun region => (account_id, region)) }

/-- `discover_ec2_used_regions_from_provider` (lines 310-388): empty
candidate set or empty account list returns at once; otherwise the account
loop runs with per-account caching. -/
def discoverFromProvider (probe : String → String → Bool)
    (region_candidates : List String)
    (account_credentials : List (String × AwsCredentials))
    (use_cache force_refresh : Bool) (cache_ttl now : ℚ) (cache : RegionCache) :
    DiscoverAcc :=
  if region_candidates.isEmpty then
    { result := fun _ => none, cache := cache, probes := [] }
  else if account_credentials.isEmpty then
    { result := fun _ => none, cache := cache, probes := [] }
  else
    account_credentials.foldl
      (discoverAccountStep probe region_candidates use_cache force_refresh cache_ttl now)
      { result := fun _ => none, cache := cache, probes := [] }

/-- A concrete throttling error (`TooManyRequestsException`). -/
def throttledError : RemoteError :=
  { code := "TooManyRequestsException", message := "Rate exceeded" }

/-- A remote that throttles the first `k` attempts and then succeeds. -/
def throttleThenOk (k : ℕ) (quota_info : QuotaInfoData) :
    ℕ → Except RemoteError QuotaInfoData :=
  fun n => if n < k then .error throttledError else .ok quota_info

/-- A declared CloudFront quota whose code is in the built-in table. -/
def cf_example_quotas : List QuotaItem :=
  [{ quota_code := "L-24B04930", quota_name := "Web distributions per AWS account",
     priority := "high" }]

/-- The limit-collection output for that CloudFront quota. -/
def cf_example_out : List QuotaResult :=
  collectServiceLimits (fun _ _ => .ok {}) (.ok []) "111122223333" "us-east-1"
    "cloudfront" (.quotas cf_example_quotas)

/-- The Success result the CloudFront branch produces for that quota. -/
def cf_example_result : QuotaResult :=
  { service := "cloudfront"
    quota_code := "L-24B04930"
    quota_name := "Web distributions per AWS account"
    status := QuotaStatus.success
    account_id := "111122223333"
    region := "us-east-1"
    quota_info := some { value := 200, account_id := some "111122223333", region := some "us-east-1" } }

/-- The aggregator after that result and a later CloudFront usage value. -/
def cf_example_collector : QuotaCollector :=
  (({} : QuotaCollector).add_result cf_example_result).set_usage_data
    "111122223333" "us-east-1" "cloudfront" [("L-24B04930", 50)]

/-- The Success result the CloudFront branch produces for a generic table
limit `L` (used to state how usage attaches to it). -/
def cf_success_result (L : ℚ) (a code name : String) : QuotaResult :=
  { service := "cloudfront"
    quota_code := code
    quota_name := name
    status := QuotaStatus.success
    quota_info := some { value := L, account_id := some a, region := some "us-east-1" }
    account_id := a
    region := "us-east-1" }

/-- Limit collection for an account with zero discovered active regions,
over a config holding one global service (route53) and one regional
service (ec2), with every remote call succeeding. -/
def c3_example_out : List QuotaResult :=
  collectAccountQuotas (fun _ _ => .ok { value := 5 }) (.ok []) "111122223333" []
    [("route53", .quotas [{ quota_code := "L-4EA4796A", quota_name := "Hosted zones", priority := "high" }]),
     ("ec2", .quotas [{ quota_code := "L-1216C47A", quota_name := "Running On-Demand Standard instances", priority := "high" }])]

/-- A collector that already holds a usage snapshot for the scope
(account a1, us-east-1, sagemaker). -/
def c7_example_collector : QuotaCollector :=
  { usage_data := fun k =>
      if k = ("a1", "us-east-1", "sagemaker") then some [("L-1216C47A", 50)] else none }

/-- A Success result with limit 200 in that scope. -/
def c7_example_result : QuotaResult :=
  { service := "sagemaker"
    quota_code := "L-1216C47A"
    quota_name := "ml.m5.xlarge for notebook instance usage"
    status := QuotaStatus.success
    account_id := "a1"
    region := "us-east-1"
    quota_info := some { value := 200, account_id := some "a1", region := some "us-east-1" } }

/-- A Skipped result for a quota with no limit result. -/
def c8_skipped_result : QuotaResult :=
  { service := "cloudfront"
    quota_code := "L-24B04930"
    quota_name := "Web distributions per AWS account"
    status := QuotaStatus.skipped
    account_id := "a1"
    region := "us-east-1"
    reason := some "not_in_service_quotas" }

/-- The aggregator after that Skipped result. -/
def c8_example_collector : QuotaCollector :=
  ({} : QuotaCollector).add_result c8_skipped_result
/-- C5, claim as stated, fails at the expiry boundary: the claim demands
`get` return absent for `now >= set_time + ttl`, but both cache layers test
expiry with a strict `>` (`cache.py` line 47, `quota_limit_cache.py` line 76),
so at `now = set_time + ttl` exactly, both still return the value. -/
theorem C5_counterexample_ttl_boundary :
    (MemoryCache.get (MemoryCache.set (MemoryCache.empty ℚ) 0 "k" 37 10) 10 "k").fst
      = some 37 ∧
    QuotaLimitCache.get
      (QuotaLimitCache.set (QuotaLimitCache.empty ℚ) 0 "acct" "us-east-1" "ec2" "L-1216C47A" 99)
      10 10 "acct" "us-east-1" "ec2" "L-1216C47A" = some 99 := by
  constructor
  · simp [MemoryCache.get, MemoryCache.set, MemoryCache.empty]
  · simp [QuotaLimitCache.get, QuotaLimitCache.set, QuotaLimitCache.empty]

/-- C5 (amended): for all keys, `get(k)` after `set(k, v, ttl)` returns `v`
while `now <= set_time + ttl` and returns absent for `now > set_time + ttl`
(the boundary instant still hits), with no explicit delete required.  The
in-memory layer evicts the expired entry lazily on the read; the file-backed
layer treats the expired entry as absent but leaves it in place. -/
theorem C5_cache_ttl_amended {V : Type} (c : MemoryCache V)
    (st : QuotaLimitCache V) (now₀ now ttl : ℚ) (k a r s q : String) (v : V) :
    (now ≤ now₀ + ttl →
      (MemoryCache.get (MemoryCache.set c now₀ k v ttl) now k).fst = some v ∧
      QuotaLimitCache.get (QuotaLimitCache.set st now₀ a r s q v) ttl now a r s q
        = some v) ∧
    (now₀ + ttl < now →
      (MemoryCache.get (MemoryCache.set c now₀ k v ttl) now k).fst = none ∧
      (MemoryCache.get (MemoryCache.set c now₀ k v ttl) now k).snd k = none ∧
      QuotaLimitCache.get (QuotaLimitCache.set st now₀ a r s q v) ttl now a r s q
        = none) := by
  constructor
  · intro h
    have hmem : ¬ now > now₀ + ttl := not_lt.mpr h
    have hfile : ¬ now - now₀ > ttl := not_lt.mpr (by linarith)
    constructor
    · simp [MemoryCache.get, MemoryCache.set, hmem]
    · simp [QuotaLimitCache.get, QuotaLimitCache.set, hfile]
  · intro h
    have hmem : now > now₀ + ttl := h
    have hfile : now - now₀ > ttl := by linarith
    refine ⟨?_, ?_, ?_⟩
    · simp [MemoryCache.get, MemoryCache.set, hmem]
    · simp [MemoryCache.get, MemoryCache.set, hmem]
    · simp [QuotaLimitCache.get, QuotaLimitCache.set, hfile]

/-- Witness for C5 (amended) at concrete inputs. -/
theorem C5_cache_ttl_amended_witness :
    ((9:ℚ) ≤ 0 + 10 ∧
      (MemoryCache.get (MemoryCache.set (MemoryCache.empty ℚ) 0 "k" 37 10) 9 "k").fst
        = some 37) ∧
    ((0:ℚ) + 10 < 11 ∧
      (MemoryCache.get (MemoryCache.set (MemoryCache.empty ℚ) 0 "k" 37 10) 11 "k").fst
        = none) := by
  refine ⟨⟨by norm_num, ?_⟩, ⟨by norm_num, ?_⟩⟩
  · exact ((C5_cache_ttl_amended (MemoryCache.empty ℚ) (QuotaLimitCache.empty ℚ)
      0 9 10 "k" "a" "r" "s" "q" 37).1 (by norm_num)).1
  · exact ((C5_cache_ttl_amended (MemoryCache.empty ℚ) (QuotaLimitCache.empty ℚ)
      0 11 10 "k" "a" "r" "s" "q" 37).2 (by norm_num)).1

/-- `strContains h n` is exactly list-infix of the character data. -/
theorem strContains_characterization (haystack needle : String) :
    strContains haystack needle = true ↔ needle.data <:+: haystack.data := by
  simp only [strContains, String.toList, List.any_eq_true, List.mem_tails,
    List.isPrefixOf_iff_prefix]
  constructor
  · rintro ⟨t, hsuf, hpre⟩
    exact List.infix_iff_prefix_suffix.mpr ⟨t, hpre, hsuf⟩
  · intro h
    obtain ⟨t, hpre, hsuf⟩ := List.infix_iff_prefix_suffix.mp h
    exact ⟨t, hsuf, hpre⟩

/-- A rendered `ClientError` message contains its error code. -/
theorem render_contains_code (e : RemoteError) :
    strContains e.render e.code = true := by
  rw [strContains_characterization]
  refine ⟨"An error occurred (".data,
    (") when calling the GetServiceQuota operation: " ++ e.message).data, ?_⟩
  simp [RemoteError.render, String.data_append]

theorem Gauge.set_self (g : Gauge) (labels : MetricLabels) (v : GaugeValue) :
    (g.set labels v) labels = v := by
  simp [Gauge.set]

theorem Gauge.set_ne (g : Gauge) (labels l : MetricLabels) (v : GaugeValue)
    (h : l ≠ labels) : (g.set labels v) l = g l := by
  simp [Gauge.set, h]

/-- C4, claim as stated, fails on the interpreter the program runs under:
CPython 3.10+ (verified on 3.11) discards the attribute-target annotations
of `__init__` at compile time instead of evaluating them, so constructing
a `QuotaScheduler` succeeds with the thread fields set to `None` — no
`NameError` is raised — and `main.py` constructs one at every startup. -/
theorem C4_counterexample_init_succeeds :
    quotaSchedulerInit 86400 3600
      = .ok { limit_interval := 86400, usage_interval := 3600, running := false,
              limit_thread := none, usage_thread := none } ∧
    quotaSchedulerInit 86400 3600 ≠ .error "Optional" :=
  ⟨rfl, fun h => Except.noConfusion h⟩

/-- C4 (amended): the thread-field annotations do reference a name the
module never binds — `Optional` is absent from `scheduler.py`'s scope,
which imports only `Callable` from `typing`, so evaluating
`Optional[threading.Thread]` there would raise `NameError: Optional` — but
CPython 3.10+ discards attribute-target annotations in function bodies at
compile time, so `QuotaScheduler.__init__` completes normally for every
argument choice and scheduler instances are produced. -/
theorem C4_scheduler_annotation_amended :
    (∀ limit_interval usage_interval : ℕ,
      quotaSchedulerInit limit_interval usage_interval
        = .ok { limit_interval := limit_interval, usage_interval := usage_interval,
                running := false, limit_thread := none, usage_thread := none }) ∧
    evalAnnotation schedulerModuleScope threadFieldAnnotation = .error "Optional" ∧
    "Optional" ∉ schedulerModuleScope ∧
    "Callable" ∈ schedulerModuleScope :=
  ⟨fun _ _ => rfl, rfl, by decide, by decide⟩

/-- C6: each of the two timer loops, on an iteration where `_running` stays
true, first sleeps its own configured interval and then invokes its bound
callback; a raised callback exception adds a log event and the loop
continues; across any number of iterations the callback is invoked once per
iteration regardless of how many callbacks raise — a failed cycle never
terminates the loop. -/
theorem C6_scheduler_loop_resilience :
    (∀ (st : SchedulerState) (callback : Except String Unit),
      (limitRefreshIter st true true callback).1
          = [LoopEvent.sleep st.limit_interval, LoopEvent.invoke] ++
            (match callback with | .ok _ => [] | .error _ => [LoopEvent.logError]) ∧
      (limitRefreshIter st true true callback).2 = true ∧
      (usageRefreshIter st true true callback).1
          = [LoopEvent.sleep st.usage_interval, LoopEvent.invoke] ++
            (match callback with | .ok _ => [] | .error _ => [LoopEvent.logError]) ∧
      (usageRefreshIter st true true callback).2 = true) ∧
    (∀ (interval : ℕ) (callbacks : ℕ → Except String Unit) (i fuel : ℕ),
      (refreshLoopRun interval (fun _ => (true, true)) callbacks i fuel).count
          LoopEvent.invoke = fuel) := by
  constructor
  · intro st callback
    cases callback <;>
      simp [limitRefreshIter, usageRefreshIter, refreshLoopIter]
  · intro interval callbacks i fuel
    induction fuel generalizing i with
    | zero => simp [refreshLoopRun]
    | succ n ih =>
      cases hcb : callbacks i <;>
        simp [refreshLoopRun, refreshLoopIter, hcb, List.count_cons, ih,
          Nat.add_comm]

/-- C9: dynamic quota discovery keeps a catalog entry iff some configured
rule has every keyword a case-insensitive substring of the quota name;
entries matching no rule are excluded; the cited concrete rule matches
"Notebook instance usage" but not "Notebook instance count"; a failed
catalog call discovers nothing. -/
theorem C9_discovery_matching :
    (∀ (config : DiscoveryConfig) (all_quotas : List CatalogQuota) (item : QuotaItem),
      item ∈ discoverQuotas config (.ok all_quotas) ↔
        ∃ q ∈ all_quotas, matchesRules config.match_rules q.quota_name = true ∧
          item = { quota_code := q.quota_code, quota_name := q.quota_name,
                   priority := config.default_priority }) ∧
    (∀ (match_rules : List (Option (List String))) (quota_name : String),
      matchesRules match_rules quota_name = true ↔
        ∃ name_contains, some name_contains ∈ match_rules ∧
          ∀ keyword ∈ name_contains,
            (strLower keyword).data <:+: (strLower quota_name).data) ∧
    matchesRules [some ["notebook", "usage"]] "Notebook instance usage" = true ∧
    matchesRules [some ["notebook", "usage"]] "Notebook instance count" = false ∧
    (∀ config : DiscoveryConfig, discoverQuotas config (.error ()) = []) := by
  refine ⟨?_, ?_, by decide, by decide, fun _ => rfl⟩
  · intro config all_quotas item
    simp only [discoverQuotas, List.mem_map, List.mem_filter]
    constructor
    · rintro ⟨q, ⟨hq, hm⟩, hitem⟩
      exact ⟨q, hq, hm, hitem.symm⟩
    · rintro ⟨q, hq, hm, hitem⟩
      exact ⟨q, ⟨hq, hm⟩, hitem.symm⟩
  · intro match_rules quota_name
    simp only [matchesRules, List.any_eq_true]
    constructor
    · rintro ⟨rule, hrule, hmatch⟩
      cases rule with
      | none => simp at hmatch
      | some name_contains =>
        refine ⟨name_contains, hrule, ?_⟩
        intro keyword hkw
        rw [← strContains_characterization]
        exact List.all_eq_true.mp hmatch keyword hkw
    · rintro ⟨name_contains, hrule, hall⟩
      refine ⟨some name_contains, hrule, ?_⟩
      rw [List.all_eq_true]
      intro keyword hkw
      rw [strContains_characterization]
      exact hall keyword hkw

/-- C1, claim as stated, fails on the total wait: it asserts that on three
consecutive throttling errors the total wait before abandonment is exactly
`2 + 4 = 6` seconds, but `get_service_quota` itself sleeps a further fixed
2 seconds inside the client before each re-raise
(`service_quotas.py` 104-110), so the code waits `(2+2) + (2+4) + 2 = 12`
seconds in total. -/
theorem C1_counterexample_total_backoff_wait :
    (getQuotaWithRetry fun _ => .error throttledError).1
        + (getQuotaWithRetry fun _ => .error throttledError).2.1 = 12 ∧
    ¬ ((getQuotaWithRetry fun _ => .error throttledError).1
        + (getQuotaWithRetry fun _ => .error throttledError).2.1 = 6) := by
  decide

/-- C1 (amended): on a throttling error the retry loop waits
`2 ** attempt * 2` seconds before each retry up to the attempt ceiling 3
(so backoff waits of 2 s then 4 s), but each throttled call additionally
sleeps a fixed 2 s inside the client, so three consecutive throttling
errors wait 6 s of backoff plus 6 s of client sleep (12 s total) before the
error is abandoned; an error of any other class is not retried, waits
nothing, and propagates at once into a Failed result carrying its specific
classified reason code. -/
theorem C1_retry_backoff_amended :
    getQuotaWithRetry (fun _ => .error throttledError) = (6, 6, .error throttledError) ∧
    (∀ quota_info : QuotaInfoData,
      getQuotaWithRetry (throttleThenOk 0 quota_info) = (0, 0, .ok (some quota_info)) ∧
      getQuotaWithRetry (throttleThenOk 1 quota_info) = (2, 2, .ok (some quota_info)) ∧
      getQuotaWithRetry (throttleThenOk 2 quota_info) = (4, 6, .ok (some quota_info))) ∧
    (∀ (e : RemoteError) (call : ℕ → Except RemoteError QuotaInfoData),
      strContains e.render "TooManyRequestsException" = false →
      call 0 = .error e →
      getQuotaWithRetry call = (0, 0, .error e)) ∧
    (∀ (e : RemoteError) (call : ℕ → Except RemoteError QuotaInfoData)
        (account_id service_region service : String) (quota : QuotaItem),
      strContains e.render "TooManyRequestsException" = false →
      call 0 = .error e →
      (fetchQuotaResult call account_id service_region service quota).status
          = QuotaStatus.failed ∧
      (fetchQuotaResult call account_id service_region service quota).reason
          = some (classifyFailureReason e.render)) ∧
    classifyFailureReason (RemoteError.render { code := "NoSuchResourceException", message := "m" })
        = "quota_not_found" ∧
    classifyFailureReason (RemoteError.render { code := "AccessDeniedException", message := "m" })
        = "permission_denied" ∧
    classifyFailureReason throttledError.render = "api_error" := by
  have hthr : strContains (RemoteError.render { code := "TooManyRequestsException", message := "Rate exceeded" }) "TooManyRequestsException" = true := by
    decide
  have himm : ∀ (e : RemoteError) (call : ℕ → Except RemoteError QuotaInfoData),
      strContains e.render "TooManyRequestsException" = false →
      call 0 = .error e →
      getQuotaWithRetry call = (0, 0, .error e) := by
    intro e call hmsg hcall
    have hcode : ¬ (e.code = "TooManyRequestsException") := by
      intro h
      have hc := render_contains_code e
      rw [h, hmsg] at hc
      exact Bool.false_ne_true hc
    simp [getQuotaWithRetry, getQuotaRetryAux, getServiceQuotaClientCall, hcall,
      hmsg, hcode]
  refine ⟨rfl, ?_, himm, ?_, by decide, by decide, by decide⟩
  · intro quota_info
    refine ⟨rfl, ?_, ?_⟩ <;>
      simp [getQuotaWithRetry, getQuotaRetryAux, getServiceQuotaClientCall,
        throttleThenOk, throttledError, hthr]
  · intro e call account_id service_region service quota hmsg hcall
    rw [fetchQuotaResult, himm e call hmsg hcall]
    exact ⟨rfl, rfl⟩

/-- Witness for C1 (amended): a permission-denied error is not retried,
waits nothing, and propagates at once. -/
theorem C1_retry_backoff_amended_witness :
    strContains (RemoteError.render { code := "AccessDeniedException", message := "m" })
        "TooManyRequestsException" = false ∧
    getQuotaWithRetry (fun _ => .error { code := "AccessDeniedException", message := "m" })
        = (0, 0, .error { code := "AccessDeniedException", message := "m" }) := by
  refine ⟨by decide, ?_⟩
  exact C1_retry_backoff_amended.2.2.1
    { code := "AccessDeniedException", message := "m" } _ (by decide) rfl

/-- C2, claim as stated, fails: the CloudFront branch of the limit phase
(`main.py` 658-709) emits *Success* results carrying the built-in table
limits — it creates no Skipped result at all — and the aggregator attaches
the CloudFront usage to that Success result through its success branch
(usage 50 against the built-in limit 200 yields a derived percent of 25). -/
theorem C2_counterexample_cloudfront_success :
    cf_example_out = [cf_example_result] ∧
    cf_example_result.status = QuotaStatus.success ∧
    cf_example_out.countP (fun r => r.status == QuotaStatus.skipped) = 0 ∧
    cf_example_collector.quota_usage cf_example_result.labels = .val 50 ∧
    cf_example_collector.quota_usage_percent cf_example_result.labels
      = .val (50 / 200 * 100) ∧
    (50 : ℚ) / 200 * 100 = 25 := by
  refine ⟨by decide, rfl, by decide, by decide, rfl, by norm_num⟩

/-- C2 (amended): for CloudFront — the one service whose limits come from
the fixed built-in table keyed by quota code — the limit phase records a
*Success* result with the table limit for each declared quota whose code is
in the table (in the fixed global region, with the account/region context
in its quota info), records nothing for codes missing from the table and
never records a Skipped result; the usage collected for the service is then
attached by the aggregator to those Success results, with the percent
derived from the table limit. -/
theorem C2_cloudfront_fixed_table_amended
    (call : String → ℕ → Except RemoteError QuotaInfoData)
    (catalog : Except Unit (List CatalogQuota))
    (account_id region : String) (quotas : List QuotaItem) :
    (∀ r ∈ collectServiceLimits call catalog account_id region "cloudfront"
        (.quotas quotas),
      r.status = QuotaStatus.success ∧ r.region = "us-east-1" ∧
        ∃ v, dictGet cloudfront_default_limits r.quota_code = some v ∧
          r.quota_info = some { value := v, account_id := some account_id, region := some "us-east-1" }) ∧
    (∀ q ∈ quotas, (dictGet cloudfront_default_limits q.quota_code).isSome = true →
      ∃ r ∈ collectServiceLimits call catalog account_id region "cloudfront"
          (.quotas quotas), r.quota_code = q.quota_code) ∧
    (∀ (u L : ℚ) (a code name : String), 0 < L →
      ((({} : QuotaCollector).add_result (cf_success_result L a code name)).set_usage_data
          a "us-east-1" "cloudfront" [(code, u)]).quota_usage
          (cf_success_result L a code name).labels = .val u ∧
      ((({} : QuotaCollector).add_result (cf_success_result L a code name)).set_usage_data
          a "us-east-1" "cloudfront" [(code, u)]).quota_usage_percent
          (cf_success_result L a code name).labels = .val (u / L * 100)) := by
  refine ⟨?_, ?_, ?_⟩
  · intro r hr
    simp only [collectServiceLimits, global_services, eq_self_iff_true, if_true,
      List.mem_filterMap] at hr
    obtain ⟨q, hq, heq⟩ := hr
    cases hdg : dictGet cloudfront_default_limits q.quota_code with
    | none =>
      rw [hdg] at heq
      simp at heq
    | some v =>
      rw [hdg] at heq
      simp at heq
      subst heq
      exact ⟨rfl, by simp, v, hdg, by simp⟩
  · intro q hq hsome
    rw [Option.isSome_iff_exists] at hsome
    obtain ⟨v, hv⟩ := hsome
    simp only [collectServiceLimits, global_services, eq_self_iff_true, if_true]
    exact ⟨_, List.mem_filterMap.mpr ⟨q, hq, by rw [hv]; rfl⟩, rfl⟩
  · intro u L a code name hL
    have hdict : dictGet [(code, u)] code = some u := by
      simp [dictGet]
    have hlbl : usageLabels a "us-east-1" "cloudfront" (cf_success_result L a code name)
        = (cf_success_result L a code name).labels := rfl
    have hsu : ∀ gp : Gauge × Gauge,
        setUsageSuccessStep a "us-east-1" "cloudfront" [(code, u)] gp
            (cf_success_result L a code name)
          = (gp.1.set (cf_success_result L a code name).labels (.val u),
             gp.2.set (cf_success_result L a code name).labels (.val (u / L * 100))) := by
      intro gp
      simp [setUsageSuccessStep, cf_success_result, hdict, hL, hlbl, usageLabels,
        QuotaResult.labels]
    have hsk : ∀ gp : Gauge × Gauge,
        setUsageSkippedStep a "us-east-1" "cloudfront" [(code, u)] gp
            (cf_success_result L a code name) = gp := by
      intro gp
      simp [setUsageSkippedStep, cf_success_result]
    constructor
    · show (setUsageSkippedStep a "us-east-1" "cloudfront" [(code, u)]
        (setUsageSuccessStep a "us-east-1" "cloudfront" [(code, u)] _
          (cf_success_result L a code name)) (cf_success_result L a code name)).1
        (cf_success_result L a code name).labels = _
      rw [hsu, hsk]
      exact Gauge.set_self _ _ _
    · show (setUsageSkippedStep a "us-east-1" "cloudfront" [(code, u)]
        (setUsageSuccessStep a "us-east-1" "cloudfront" [(code, u)] _
          (cf_success_result L a code name)) (cf_success_result L a code name)).2
        (cf_success_result L a code name).labels = _
      rw [hsu, hsk]
      exact Gauge.set_self _ _ _

/-- Witness for C2 (amended) at concrete inputs. -/
theorem C2_cloudfront_fixed_table_amended_witness :
    ((dictGet cloudfront_default_limits "L-24B04930").isSome = true ∧
      ∃ r ∈ collectServiceLimits (fun _ _ => .ok {}) (.ok []) "111122223333"
          "eu-west-1" "cloudfront" (.quotas cf_example_quotas),
        r.quota_code = "L-24B04930") ∧
    ((0 : ℚ) < 200 ∧
      ((({} : QuotaCollector).add_result (cf_success_result 200 "a1" "C" "N")).set_usage_data
          "a1" "us-east-1" "cloudfront" [("C", 50)]).quota_usage_percent
          (cf_success_result 200 "a1" "C" "N").labels = .val (50 / 200 * 100)) := by
  constructor
  · refine ⟨by decide, ?_⟩
    exact (C2_cloudfront_fixed_table_amended (fun _ _ => .ok {}) (.ok [])
      "111122223333" "eu-west-1" cf_example_quotas).2.1
      { quota_code := "L-24B04930", quota_name := "Web distributions per AWS account",
        priority := "high" } (by decide) (by decide)
  · refine ⟨by norm_num, ?_⟩
    exact ((C2_cloudfront_fixed_table_amended (fun _ _ => .ok {}) (.ok []) "x" "y"
      []).2.2 50 200 "a1" "C" "N" (by norm_num)).2

/-- C3: the claim is the code's own stated intent (the fallback log line at
`main.py` 388 reads "will only collect global services"), but the
per-region limit loop then iterates every configured service, so an account
with zero discovered active regions, after falling back to the fixed
default region, yields results for the regional services there too — one
ec2 result appears alongside the route53 result, all in `us-east-1`. -/
theorem C3_region_fallback_code_bug :
    c3_example_out.countP (fun r => r.service == "route53") = 1 ∧
    c3_example_out.countP (fun r => r.service == "ec2") = 1 ∧
    c3_example_out.all
        (fun r => r.region == "us-east-1" && r.status == QuotaStatus.success) = true := by
  decide

/-- C7: for a Success result processed by `add_result`, the limit gauge is
set from the result's quota info (`dict.get('value', 0.0)`); the
usage-percent gauge is only ever derived: `usage / limit * 100` when a
usage value is found and the limit is positive, and NaN when the limit is 0
or no usage value is found; the success loop of `set_usage_data` likewise
only ever leaves a percent cell alone or writes the same derivation. -/
theorem C7_percent_derivation (col : QuotaCollector) (result : QuotaResult)
    (h : result.status = QuotaStatus.success) :
    ((col.add_result result).quota_limit result.labels
        = .val ((result.quota_info.map QuotaInfoData.value).getD 0)) ∧
    (∀ usage_value : ℚ,
      col.get_usage_value result.account_id result.region result.service
          result.quota_code = some usage_value →
      (col.add_result result).quota_usage result.labels = .val usage_value ∧
      (col.add_result result).quota_usage_percent result.labels
        = (if 0 < (result.quota_info.map QuotaInfoData.value).getD 0 then
             .val (usage_value / (result.quota_info.map QuotaInfoData.value).getD 0 * 100)
           else .nan)) ∧
    (col.get_usage_value result.account_id result.region result.service
        result.quota_code = none →
      (col.add_result result).quota_usage result.labels = .nan ∧
      (col.add_result result).quota_usage_percent result.labels = .nan) ∧
    (∀ (account_id region service : String) (usage_data : List (String × ℚ))
        (g : Gauge × Gauge) (r : QuotaResult) (lbl : MetricLabels),
      (setUsageSuccessStep account_id region service usage_data g r).2 lbl = g.2 lbl ∨
      ∃ quota_info usage_value, r.quota_info = some quota_info ∧
        dictGet usage_data r.quota_code = some usage_value ∧
        (setUsageSuccessStep account_id region service usage_data g r).2 lbl
          = (if 0 < quota_info.value then
               .val (usage_value / quota_info.value * 100)
             else .nan)) := by
  refine ⟨?_, ?_, ?_, ?_⟩
  · simp only [QuotaCollector.add_result, h]
    split
    · by_cases hpos : 0 < (result.quota_info.map QuotaInfoData.value).getD 0 <;>
        simp [hpos, Gauge.set_self]
    · simp [Gauge.set_self]
  · intro usage_value hug
    simp only [QuotaCollector.add_result, h]
    split
    case _ x heq =>
      have heq2 : col.get_usage_value result.account_id result.region result.service
          result.quota_code = some x := heq
      rw [hug] at heq2
      cases heq2
      by_cases hpos : 0 < (result.quota_info.map QuotaInfoData.value).getD 0 <;>
        simp [hpos, Gauge.set_self]
    case _ heq =>
      have heq2 : col.get_usage_value result.account_id result.region result.service
          result.quota_code = none := heq
      rw [hug] at heq2
      cases heq2
  · intro hug
    simp only [QuotaCollector.add_result, h]
    split
    case _ x heq =>
      have heq2 : col.get_usage_value result.account_id result.region result.service
          result.quota_code = some x := heq
      rw [hug] at heq2
      cases heq2
    case _ heq =>
      simp [Gauge.set_self]
  · intro account_id region service usage_data g r lbl
    unfold setUsageSuccessStep
    cases hqi : r.quota_info with
    | none => exact Or.inl rfl
    | some quota_info =>
      by_cases hcond : r.status = QuotaStatus.success ∧
          quota_info.account_id = some account_id ∧
          quota_info.region = some region ∧ r.service = service
      · simp only [if_pos hcond]
        cases hdg : dictGet usage_data r.quota_code with
        | none => exact Or.inl rfl
        | some usage_value =>
          by_cases hl : lbl = usageLabels account_id region service r
          · refine Or.inr ⟨quota_info, usage_value, rfl, rfl, ?_⟩
            subst hl
            by_cases hpos : 0 < quota_info.value <;>
              simp [hpos, Gauge.set_self]
          · refine Or.inl ?_
            by_cases hpos : 0 < quota_info.value <;>
              simp [hpos, Gauge.set_ne _ _ _ _ hl]
      · simp only [if_neg hcond]
        exact Or.inl trivial

/-- Witness for C7 at limit 200 and usage 50 (percent 25). -/
theorem C7_percent_derivation_witness :
    c7_example_result.status = QuotaStatus.success ∧
    c7_example_collector.get_usage_value c7_example_result.account_id
        c7_example_result.region c7_example_result.service
        c7_example_result.quota_code = some 50 ∧
    (c7_example_collector.add_result c7_example_result).quota_limit
        c7_example_result.labels = .val 200 ∧
    (c7_example_collector.add_result c7_example_result).quota_usage_percent
        c7_example_result.labels = .val (50 / 200 * 100) ∧
    (50 : ℚ) / 200 * 100 = 25 := by
  have h := C7_percent_derivation c7_example_collector c7_example_result rfl
  have hug : c7_example_collector.get_usage_value c7_example_result.account_id
      c7_example_result.region c7_example_result.service
      c7_example_result.quota_code = some 50 := by decide
  have hL : (Option.map QuotaInfoData.value c7_example_result.quota_info).getD 0
      = 200 := rfl
  have h2 := h.2.1 50 hug
  rw [hL, if_pos (show (0:ℚ) < 200 by norm_num)] at h2
  have h1 := h.1
  rw [hL] at h1
  exact ⟨rfl, hug, h1, h2.2, by norm_num⟩

theorem setUsageSkippedStep_write (account_id region service : String)
    (usage_data : List (String × ℚ)) (g : Gauge × Gauge) (r : QuotaResult) (u : ℚ)
    (hst : r.status = QuotaStatus.skipped) (ha : r.account_id = account_id)
    (hreg : r.region = region) (hsv : r.service = service)
    (hu : dictGet usage_data r.quota_code = some u) :
    setUsageSkippedStep account_id region service usage_data g r
      = (g.1.set (usageLabels account_id region service r) (.val u),
         g.2.set (usageLabels account_id region service r) .nan) := by
  simp [setUsageSkippedStep, hst, ha, hreg, hsv, hu]

theorem setUsageSkippedStep_preserve (account_id region service : String)
    (usage_data : List (String × ℚ)) (g : Gauge × Gauge) (r : QuotaResult)
    (lbl : MetricLabels)
    (h : r.quota_code = lbl.quota_code → r.quota_name = lbl.quota_name → False) :
    (setUsageSkippedStep account_id region service usage_data g r).1 lbl = g.1 lbl ∧
    (setUsageSkippedStep account_id region service usage_data g r).2 lbl = g.2 lbl := by
  unfold setUsageSkippedStep
  split
  · cases hdg : dictGet usage_data r.quota_code with
    | none => exact ⟨rfl, rfl⟩
    | some u =>
      have hne : lbl ≠ usageLabels account_id region service r := by
        intro he
        subst he
        exact h rfl rfl
      exact ⟨Gauge.set_ne _ _ _ _ hne, Gauge.set_ne _ _ _ _ hne⟩
  · exact ⟨rfl, rfl⟩

theorem foldl_skippedStep_preserve (account_id region service : String)
    (usage_data : List (String × ℚ)) (l : List QuotaResult) (lbl : MetricLabels) :
    ∀ g : Gauge × Gauge,
      (∀ r' ∈ l, r'.quota_code = lbl.quota_code → r'.quota_name = lbl.quota_name →
        False) →
      (l.foldl (setUsageSkippedStep account_id region service usage_data) g).1 lbl
          = g.1 lbl ∧
      (l.foldl (setUsageSkippedStep account_id region service usage_data) g).2 lbl
          = g.2 lbl := by
  induction l with
  | nil => exact fun g _ => ⟨rfl, rfl⟩
  | cons y ys ihy =>
    intro g h
    have hy := setUsageSkippedStep_preserve account_id region service usage_data g y
      lbl (h y (List.mem_cons_self _ _))
    have hys := ihy (setUsageSkippedStep account_id region service usage_data g y)
      (fun r' hr' => h r' (List.mem_cons_of_mem _ hr'))
    rw [List.foldl_cons]
    exact ⟨hys.1.trans hy.1, hys.2.trans hy.2⟩

theorem foldl_skippedStep_attach (account_id region service : String)
    (usage_data : List (String × ℚ)) (r : QuotaResult) (u : ℚ)
    (hst : r.status = QuotaStatus.skipped) (ha : r.account_id = account_id)
    (hreg : r.region = region) (hsv : r.service = service)
    (hu : dictGet usage_data r.quota_code = some u) (l : List QuotaResult) :
    ∀ g : Gauge × Gauge, r ∈ l →
      (∀ r' ∈ l, r'.quota_code = r.quota_code → r'.quota_name = r.quota_name →
        r' = r) →
      (l.foldl (setUsageSkippedStep account_id region service usage_data) g).1
          (usageLabels account_id region service r) = .val u ∧
      (l.foldl (setUsageSkippedStep account_id region service usage_data) g).2
          (usageLabels account_id region service r) = .nan := by
  induction l with
  | nil =>
    intro g hmem _
    cases hmem
  | cons x xs ih =>
    intro g hmem huniq
    by_cases hxs : r ∈ xs
    · rw [List.foldl_cons]
      exact ih _ hxs (fun r' hr' => huniq r' (List.mem_cons_of_mem _ hr'))
    · have hx : x = r := by
        rcases List.mem_cons.mp hmem with hcase | hcase
        · exact hcase.symm
        · exact absurd hcase hxs
      subst hx
      rw [List.foldl_cons,
        setUsageSkippedStep_write account_id region service usage_data g x u hst ha
          hreg hsv hu]
      have hpres := foldl_skippedStep_preserve account_id region service usage_data
        xs (usageLabels account_id region service x)
        (g.1.set (usageLabels account_id region service x) (.val u),
         g.2.set (usageLabels account_id region service x) .nan)
        (fun r' hr' hc hn =>
          hxs ((huniq r' (List.mem_cons_of_mem _ hr') hc hn) ▸ hr'))
      exact ⟨hpres.1.trans (Gauge.set_self _ _ _),
        hpres.2.trans (Gauge.set_self _ _ _)⟩

/-- C8: a Skipped result plus a later-arriving usage value for the same
(account, region, service, quota code) makes `set_usage_data` set a usage
series entry and a NaN percent entry at that quota's labels, while the
limit gauge is never touched — neither by processing the Skipped result nor
by any usage application. -/
theorem C8_usage_without_limit (col : QuotaCollector) (r : QuotaResult)
    (account_id region service : String) (usage_data : List (String × ℚ)) (u : ℚ)
    (hst : r.status = QuotaStatus.skipped) (ha : r.account_id = account_id)
    (hreg : r.region = region) (hsv : r.service = service)
    (hmem : r ∈ col.results) (hu : dictGet usage_data r.quota_code = some u)
    (huniq : ∀ r' ∈ col.results, r'.quota_code = r.quota_code →
      r'.quota_name = r.quota_name → r' = r) :
    (∀ (col₂ : QuotaCollector) (a g v : String) (ud : List (String × ℚ)),
      (col₂.set_usage_data a g v ud).quota_limit = col₂.quota_limit) ∧
    ((col.add_result r).quota_limit = col.quota_limit) ∧
    (col.set_usage_data account_id region service usage_data).quota_usage r.labels
        = .val u ∧
    (col.set_usage_data account_id region service usage_data).quota_usage_percent
        r.labels = .nan := by
  have hlbl : r.labels = usageLabels account_id region service r := by
    simp [QuotaResult.labels, usageLabels, ha, hreg, hsv]
  have hatt := foldl_skippedStep_attach account_id region service usage_data
    r u hst ha hreg hsv hu col.results
    (col.results.foldl (setUsageSuccessStep account_id region service usage_data)
      (col.quota_usage, col.quota_usage_percent))
    hmem huniq
  refine ⟨fun _ _ _ _ _ => rfl, ?_, ?_, ?_⟩
  · simp [QuotaCollector.add_result, hst]
  · rw [hlbl]
    exact hatt.1
  · rw [hlbl]
    exact hatt.2

/-- Witness for C8 at a concrete skipped quota and usage value 7. -/
theorem C8_usage_without_limit_witness :
    c8_skipped_result.status = QuotaStatus.skipped ∧
    c8_skipped_result ∈ c8_example_collector.results ∧
    (c8_example_collector.set_usage_data "a1" "us-east-1" "cloudfront"
        [("L-24B04930", 7)]).quota_usage c8_skipped_result.labels = .val 7 ∧
    (c8_example_collector.set_usage_data "a1" "us-east-1" "cloudfront"
        [("L-24B04930", 7)]).quota_usage_percent c8_skipped_result.labels = .nan := by
  have h := C8_usage_without_limit c8_example_collector c8_skipped_result "a1"
    "us-east-1" "cloudfront" [("L-24B04930", 7)] 7 rfl rfl rfl rfl (by decide)
    (by decide) (by decide)
  exact ⟨rfl, by decide, h.2.2.1, h.2.2.2⟩

theorem discoverAccountStep_skip (probe : String → String → Bool)
    (region_candidates : List String) (use_cache force_refresh : Bool)
    (cache_ttl now : ℚ) (acc : DiscoverAcc) (entry : String × AwsCredentials)
    (hcred : entry.2.access_key = "" ∨ entry.2.secret_key = "") :
    discoverAccountStep probe region_candidates use_cache force_refresh cache_ttl
      now acc entry = acc := by
  simp [discoverAccountStep, hcred]

theorem discoverAccountStep_cached (probe : String → String → Bool)
    (region_candidates : List String) (cache_ttl now : ℚ) (acc : DiscoverAcc)
    (entry : String × AwsCredentials) (cached_regions : List String)
    (hcred : ¬(entry.2.access_key = "" ∨ entry.2.secret_key = ""))
    (hload : loadAccountCache acc.cache cache_ttl now entry.1 = some cached_regions) :
    discoverAccountStep probe region_candidates true false cache_ttl now acc entry
      = { acc with result := fun a =>
          if a = entry.1 then some cached_regions else acc.result a } := by
  simp [discoverAccountStep, hcred, hload]

theorem discoverAccountStep_probe_path (probe : String → String → Bool)
    (region_candidates : List String) (use_cache : Bool) (cache_ttl now : ℚ)
    (acc : DiscoverAcc) (entry : String × AwsCredentials)
    (hcred : ¬(entry.2.access_key = "" ∨ entry.2.secret_key = ""))
    (hload : (if use_cache && !false then
        loadAccountCache acc.cache cache_ttl now entry.1 else none) = none) :
    discoverAccountStep probe region_candidates use_cache false cache_ttl now acc
        entry
      = { result := fun a =>
            if a = entry.1 then some (region_candidates.filter (probe entry.1))
            else acc.result a
          cache := if use_cache then
              saveAccountCache acc.cache now entry.1
                (region_candidates.filter (probe entry.1))
            else acc.cache
          probes := acc.probes ++
            region_candidates.map (fun region => (entry.1, region)) } := by
  simp only [discoverAccountStep, if_neg hcred, hload]

theorem discoverAccountStep_force (probe : String → String → Bool)
    (region_candidates : List String) (use_cache : Bool) (cache_ttl now : ℚ)
    (acc : DiscoverAcc) (entry : String × AwsCredentials)
    (hcred : ¬(entry.2.access_key = "" ∨ entry.2.secret_key = "")) :
    discoverAccountStep probe region_candidates use_cache true cache_ttl now acc
        entry
      = { result := fun a =>
            if a = entry.1 then some (region_candidates.filter (probe entry.1))
            else acc.result a
          cache := if use_cache then
              saveAccountCache acc.cache now entry.1
                (region_candidates.filter (probe entry.1))
            else acc.cache
          probes := acc.probes ++
            region_candidates.map (fun region => (entry.1, region)) } := by
  simp [discoverAccountStep, hcred]

theorem discoverAccountStep_invariant (probe : String → String → Bool)
    (region_candidates : List String) (cache_ttl now : ℚ) (aid : String)
    (e : RegionCacheEntry) (acc : DiscoverAcc) (entry : String × AwsCredentials)
    (hc : acc.cache aid = some e) (hfresh : ¬(now - e.timestamp > cache_ttl))
    (hpr : acc.probes.filter (fun p => p.1 == aid) = []) :
    (discoverAccountStep probe region_candidates true false cache_ttl now acc
        entry).cache aid = some e ∧
    (discoverAccountStep probe region_candidates true false cache_ttl now acc
        entry).probes.filter (fun p => p.1 == aid) = [] ∧
    ((discoverAccountStep probe region_candidates true false cache_ttl now acc
        entry).result aid = acc.result aid ∨
     (discoverAccountStep probe region_candidates true false cache_ttl now acc
        entry).result aid = some e.regions) ∧
    (entry.1 = aid → entry.2.access_key ≠ "" → entry.2.secret_key ≠ "" →
      (discoverAccountStep probe region_candidates true false cache_ttl now acc
        entry).result aid = some e.regions) := by
  by_cases hcred : entry.2.access_key = "" ∨ entry.2.secret_key = ""
  · rw [discoverAccountStep_skip probe region_candidates true false cache_ttl now
      acc entry hcred]
    refine ⟨hc, hpr, Or.inl rfl, ?_⟩
    intro _ hak hsk
    rcases hcred with hcred | hcred
    · exact absurd hcred hak
    · exact absurd hcred hsk
  · cases hload : loadAccountCache acc.cache cache_ttl now entry.1 with
    | some cached_regions =>
      rw [discoverAccountStep_cached probe region_candidates cache_ttl now acc
        entry cached_regions hcred hload]
      by_cases haid : entry.1 = aid
      · have hload2 : loadAccountCache acc.cache cache_ttl now aid
            = some e.regions := by
          simp [loadAccountCache, hc, hfresh]
        rw [haid, hload2] at hload
        have hregs : e.regions = cached_regions := Option.some.inj hload
        refine ⟨hc, hpr, Or.inr ?_, fun _ _ _ => ?_⟩
        · show (if aid = entry.1 then some cached_regions else acc.result aid)
            = some e.regions
          rw [if_pos haid.symm, hregs]
        · show (if aid = entry.1 then some cached_regions else acc.result aid)
            = some e.regions
          rw [if_pos haid.symm, hregs]
      · refine ⟨hc, hpr, Or.inl ?_, fun h1 => absurd h1 haid⟩
        show (if aid = entry.1 then some cached_regions else acc.result aid)
          = acc.result aid
        rw [if_neg (fun h => haid h.symm)]
    | none =>
      have hload2 : (if true && !false then
          loadAccountCache acc.cache cache_ttl now entry.1 else none) = none := by
        simpa using hload
      rw [discoverAccountStep_probe_path probe region_candidates true cache_ttl now
        acc entry hcred hload2]
      by_cases haid : entry.1 = aid
      · rw [haid] at hload
        rw [show loadAccountCache acc.cache cache_ttl now aid = some e.regions by
          simp [loadAccountCache, hc, hfresh]] at hload
        cases hload
      · refine ⟨?_, ?_, Or.inl ?_, fun h1 => absurd h1 haid⟩
        · simp only [eq_self_iff_true, if_true, saveAccountCache]
          rw [if_neg (fun h => haid h.symm)]
          exact hc
        · rw [List.filter_append, hpr, List.nil_append, List.filter_eq_nil_iff]
          intro p hp
          obtain ⟨region, _, hpe⟩ := List.mem_map.mp hp
          subst hpe
          simp only [beq_iff_eq]
          exact haid
        · show (if aid = entry.1 then _ else acc.result aid) = acc.result aid
          rw [if_neg (fun h => haid h.symm)]

theorem discoverFold_cached (probe : String → String → Bool)
    (region_candidates : List String) (cache_ttl now : ℚ) (aid : String)
    (e : RegionCacheEntry) (l : List (String × AwsCredentials)) :
    ∀ acc : DiscoverAcc, acc.cache aid = some e →
      ¬(now - e.timestamp > cache_ttl) →
      acc.probes.filter (fun p => p.1 == aid) = [] →
      (l.foldl (discoverAccountStep probe region_candidates true false cache_ttl now)
          acc).cache aid = some e ∧
      (l.foldl (discoverAccountStep probe region_candidates true false cache_ttl now)
          acc).probes.filter (fun p => p.1 == aid) = [] ∧
      ((l.foldl (discoverAccountStep probe region_candidates true false cache_ttl now)
          acc).result aid = acc.result aid ∨
       (l.foldl (discoverAccountStep probe region_candidates true false cache_ttl now)
          acc).result aid = some e.regions) ∧
      ((∃ c : AwsCredentials, (aid, c) ∈ l ∧ c.access_key ≠ "" ∧ c.secret_key ≠ "") →
        (l.foldl (discoverAccountStep probe region_candidates true false cache_ttl now)
          acc).result aid = some e.regions) := by
  induction l with
  | nil =>
    intro acc hc hf hp
    refine ⟨hc, hp, Or.inl rfl, ?_⟩
    rintro ⟨c, hmem, -, -⟩
    cases hmem
  | cons x xs ih =>
    intro acc hc hf hp
    have hstep := discoverAccountStep_invariant probe region_candidates cache_ttl
      now aid e acc x hc hf hp
    have hrest := ih _ hstep.1 hf hstep.2.1
    rw [List.foldl_cons]
    refine ⟨hrest.1, hrest.2.1, ?_, ?_⟩
    · rcases hrest.2.2.1 with h1 | h1
      · rw [h1]
        exact hstep.2.2.1
      · exact Or.inr h1
    · rintro ⟨c, hmem, hak, hsk⟩
      rcases List.mem_cons.mp hmem with hcase | hcase
      · have hres : (discoverAccountStep probe region_candidates true false
            cache_ttl now acc x).result aid = some e.regions := by
          apply hstep.2.2.2
          · rw [← hcase]
          · rw [← hcase]
            exact hak
          · rw [← hcase]
            exact hsk
        rcases hrest.2.2.1 with h1 | h1
        · rw [h1]
          exact hres
        · exact h1
      · exact hrest.2.2.2 ⟨c, hcase, hak, hsk⟩

theorem discoverFromProvider_force (probe : String → String → Bool)
    (region_candidates : List String) (aid : String) (c : AwsCredentials)
    (use_cache : Bool) (cache_ttl now : ℚ) (cache : RegionCache)
    (hcand : region_candidates ≠ []) (hak : c.access_key ≠ "")
    (hsk : c.secret_key ≠ "") :
    (discoverFromProvider probe region_candidates [(aid, c)] use_cache true
        cache_ttl now cache).probes
      = region_candidates.map (fun region => (aid, region)) ∧
    (discoverFromProvider probe region_candidates [(aid, c)] use_cache true
        cache_ttl now cache).result aid
      = some (region_candidates.filter (probe aid)) := by
  have hcred : ¬(((aid, c) : String × AwsCredentials).2.access_key = "" ∨
      ((aid, c) : String × AwsCredentials).2.secret_key = "") := by
    rintro (h1 | h1)
    · exact hak h1
    · exact hsk h1
  have hne : region_candidates.isEmpty = false := by
    rw [List.isEmpty_eq_false]
    exact hcand
  simp only [discoverFromProvider, hne, Bool.false_eq_true, if_false,
    List.isEmpty_cons, List.foldl_cons, List.foldl_nil]
  rw [discoverAccountStep_force probe region_candidates use_cache cache_ttl now
    { result := fun _ => none, cache := cache, probes := [] } (aid, c) hcred]
  refine ⟨by simp, ?_⟩
  show (if aid = aid then some (region_candidates.filter (probe aid)) else none)
    = some (region_candidates.filter (probe aid))
  rw [if_pos rfl]

/-- C10: a second active-region discovery call within 24h of the first,
without force-refresh, performs zero probe calls for that account, returns
its cached region set unchanged and leaves its cache entry untouched; with
the force-refresh flag set the cache read is bypassed unconditionally
(whatever the cache holds and whether or not the cache is enabled) and
every candidate region is probed again. -/
theorem C10_region_cache (probe : String → String → Bool)
    (region_candidates : List String)
    (account_credentials : List (String × AwsCredentials))
    (cache_ttl now : ℚ) (account_id : String) (e : RegionCacheEntry)
    (c : AwsCredentials) (cache : RegionCache)
    (hcand : region_candidates ≠ [])
    (hcache : cache account_id = some e)
    (hfresh : now - e.timestamp ≤ cache_ttl)
    (hmem : (account_id, c) ∈ account_credentials)
    (hak : c.access_key ≠ "") (hsk : c.secret_key ≠ "") :
    ((discoverFromProvider probe region_candidates account_credentials true false
        cache_ttl now cache).probes.filter (fun p => p.1 == account_id) = [] ∧
     (discoverFromProvider probe region_candidates account_credentials true false
        cache_ttl now cache).result account_id = some e.regions ∧
     (discoverFromProvider probe region_candidates account_credentials true false
        cache_ttl now cache).cache account_id = some e) ∧
    (∀ use_cache : Bool,
      (discoverFromProvider probe region_candidates [(account_id, c)] use_cache
          true cache_ttl now cache).probes
        = region_candidates.map (fun region => (account_id, region)) ∧
      (discoverFromProvider probe region_candidates [(account_id, c)] use_cache
          true cache_ttl now cache).result account_id
        = some (region_candidates.filter (probe account_id))) := by
  constructor
  · have hne : region_candidates.isEmpty = false := by
      rw [List.isEmpty_eq_false]
      exact hcand
    have hne2 : account_credentials.isEmpty = false := by
      rw [List.isEmpty_eq_false]
      exact List.ne_nil_of_mem hmem
    have hfold := discoverFold_cached probe region_candidates cache_ttl now
      account_id e account_credentials
      { result := fun _ => none, cache := cache, probes := [] }
      hcache (not_lt.mpr hfresh) rfl
    simp only [discoverFromProvider, hne, hne2, Bool.false_eq_true, if_false]
    exact ⟨hfold.2.1, hfold.2.2.2 ⟨c, hmem, hak, hsk⟩, hfold.1⟩
  · intro use_cache
    exact discoverFromProvider_force probe region_candidates account_id c
      use_cache cache_ttl now cache hcand hak hsk

/-- Witness for C10 at a concrete cached account. -/
theorem C10_region_cache_witness :
    ((fun a => if a = "a1" then
        some { timestamp := 0, regions := ["ap-southeast-1"] } else none :
        RegionCache) "a1" = some { timestamp := 0, regions := ["ap-southeast-1"] }) ∧
    (100 : ℚ) - 0 ≤ 86400 ∧
    (discoverFromProvider (fun _ _ => true) ["us-east-1", "ap-southeast-1"]
        [("a1", { access_key := "AK", secret_key := "SK" })] true false 86400 100
        (fun a => if a = "a1" then
          some { timestamp := 0, regions := ["ap-southeast-1"] } else none)).probes.filter
        (fun p => p.1 == "a1") = [] ∧
    (discoverFromProvider (fun _ _ => true) ["us-east-1", "ap-southeast-1"]
        [("a1", { access_key := "AK", secret_key := "SK" })] true false 86400 100
        (fun a => if a = "a1" then
          some { timestamp := 0, regions := ["ap-southeast-1"] } else none)).result
        "a1" = some ["ap-southeast-1"] ∧
    (discoverFromProvider (fun _ _ => true) ["us-east-1", "ap-southeast-1"]
        [("a1", { access_key := "AK", secret_key := "SK" })] true true 86400 100
        (fun a => if a = "a1" then
          some { timestamp := 0, regions := ["ap-southeast-1"] } else none)).probes
      = [("a1", "us-east-1"), ("a1", "ap-southeast-1")] := by
  have h := C10_region_cache (fun _ _ => true) ["us-east-1", "ap-southeast-1"]
    [("a1", { access_key := "AK", secret_key := "SK" })] 86400 100 "a1"
    { timestamp := 0, regions := ["ap-southeast-1"] }
    { access_key := "AK", secret_key := "SK" }
    (fun a => if a = "a1" then
      some { timestamp := 0, regions := ["ap-southeast-1"] } else none)
    (by decide) (by decide) (by norm_num) (by decide) (by decide) (by decide)
  exact ⟨by decide, by norm_num, h.1.1, h.1.2.1, (h.2 true).1.trans (by decide)⟩
